import Mathlib

/-!
Verification of the feasibility calculation engine of the property
development calculator (src/main.py).  The engine is a straight-line
arithmetic pipeline from a flat record of numeric inputs to derived
cost, revenue and return metrics (main.py lines 121-181).  We embed it
shallowly over the rationals: every Python float expression becomes the
corresponding exact rational expression, every guarded division keeps
its guard, and the one numerical step (the numpy-financial IRR root
finder and the float power used by its fallback) is abstracted as an
explicit outcome parameter so that the surrounding control flow can be
reasoned about exactly.
-/

/-- The flat input record gathered from the UI widgets in src/main.py.
Percentage fields hold the displayed percentage (e.g. 85 for 85%), as
in the source, which divides by 100 at each use site. -/
structure Inputs where
  sitePrice : ℚ
  siteSize : ℚ
  fsr : ℚ
  nsaPercent : ℚ
  numDwellings : ℚ
  demolitionCost : ℚ
  constructionCost : ℚ
  consultantPct : ℚ
  marketingPct : ℚ
  agentsPct : ℚ
  gstPct : ℚ
  statutoryPct : ℚ
  legalPct : ℚ
  landHoldingPct : ℚ
  lvrPct : ℚ
  interestPct : ℚ
  projectTimeline : ℚ
  avgSalePrice : ℚ
  stampDutyPct : ℚ

/-- main.py line 121: `gfa = site_size * fsr`. -/
def gfa (i : Inputs) : ℚ := i.siteSize * i.fsr

/-- main.py line 122: `nsa = gfa * (nsa_ratio / 100)`. -/
def nsa (i : Inputs) : ℚ := gfa i * (i.nsaPercent / 100)

/-- main.py line 123: `avg_dwelling_size = nsa / num_dwellings if num_dwellings > 0 else 0`. -/
def avgDwellingSize (i : Inputs) : ℚ :=
  if i.numDwellings > 0 then nsa i / i.numDwellings else 0

/-- main.py line 125: `land_cost_per_gfa = site_price / gfa if gfa > 0 else 0`. -/
def landCostPerGfa (i : Inputs) : ℚ :=
  if gfa i > 0 then i.sitePrice / gfa i else 0

/-- main.py line 126: `total_build_cost = gfa * construction_cost`. -/
def totalBuildCost (i : Inputs) : ℚ := gfa i * i.constructionCost

/-- main.py line 127: `consultant_costs = gfa * construction_cost * (consultant_costs_pct / 100)`. -/
def consultantCosts (i : Inputs) : ℚ :=
  gfa i * i.constructionCost * (i.consultantPct / 100)

/-- main.py line 128: `expected_revenue = nsa * avg_sale_price`. -/
def expectedRevenue (i : Inputs) : ℚ := nsa i * i.avgSalePrice

/-- main.py line 129: `gst = expected_revenue * (gst_pct / 100)`. -/
def gstOnSales (i : Inputs) : ℚ := expectedRevenue i * (i.gstPct / 100)

/-- main.py line 130: `price_per_dwelling = expected_revenue / num_dwellings if num_dwellings > 0 else 0`. -/
def pricePerDwelling (i : Inputs) : ℚ :=
  if i.numDwellings > 0 then expectedRevenue i / i.numDwellings else 0

/-- main.py line 132: `marketing_costs = expected_revenue * (marketing_costs_pct / 100)`. -/
def marketingCosts (i : Inputs) : ℚ := expectedRevenue i * (i.marketingPct / 100)

/-- main.py line 133: `agents_fees = expected_revenue * (agents_fees_pct / 100)`. -/
def agentsFees (i : Inputs) : ℚ := expectedRevenue i * (i.agentsPct / 100)

/-- main.py line 134: `stamp_duty = site_price * (stamp_duty_pct / 100)` (the flat-rate strategy). -/
def stampDuty (i : Inputs) : ℚ := i.sitePrice * (i.stampDutyPct / 100)

/-- main.py line 137: site finance cost. -/
def siteFinanceCost (i : Inputs) : ℚ :=
  i.sitePrice * (i.lvrPct / 100) * (i.interestPct / 100) * (i.projectTimeline / 12)

/-- main.py line 141: building finance cost, charged on
`total_build_cost + consultant_costs + demolition_cost` over half the
project timeline (the `/ 24`). -/
def buildingFinanceCost (i : Inputs) : ℚ :=
  (totalBuildCost i + consultantCosts i + i.demolitionCost) *
    (i.lvrPct / 100) * (i.interestPct / 100) * (i.projectTimeline / 24)

/-- main.py line 143: `finance_cost = site_finance_cost + building_finance_cost`. -/
def financeCost (i : Inputs) : ℚ := siteFinanceCost i + buildingFinanceCost i

/-- main.py lines 147-149: land holding costs over the project duration. -/
def totalLandHoldingCosts (i : Inputs) : ℚ :=
  i.sitePrice * (i.landHoldingPct / 100) * (i.projectTimeline / 12)

/-- main.py line 152: `development_cost = site_price + total_build_cost`. -/
def developmentCost (i : Inputs) : ℚ := i.sitePrice + totalBuildCost i

/-- main.py line 153: `legal_fees = development_cost * (legal_fees_pct / 100)`. -/
def legalFees (i : Inputs) : ℚ := developmentCost i * (i.legalPct / 100)

/-- main.py line 157: the pre-statutory-fee subtotal of the other eleven
cost line items. -/
def subtotalCosts (i : Inputs) : ℚ :=
  i.sitePrice + totalBuildCost i + consultantCosts i + marketingCosts i +
    agentsFees i + stampDuty i + financeCost i + i.demolitionCost +
    gstOnSales i + legalFees i + totalLandHoldingCosts i

/-- main.py line 158: `statutory_fees = subtotal_costs * (statutory_fees_pct / 100)`. -/
def statutoryFees (i : Inputs) : ℚ := subtotalCosts i * (i.statutoryPct / 100)

/-- main.py line 160: `total_costs = subtotal_costs + statutory_fees`. -/
def totalCosts (i : Inputs) : ℚ := subtotalCosts i + statutoryFees i

/-- main.py line 161: `profit = expected_revenue - total_costs`. -/
def profit (i : Inputs) : ℚ := expectedRevenue i - totalCosts i

/-- main.py line 162: `profit_margin_pct = (profit / expected_revenue) * 100 if expected_revenue > 0 else 0`. -/
def profitMarginPct (i : Inputs) : ℚ :=
  if expectedRevenue i > 0 then profit i / expectedRevenue i * 100 else 0

/-- main.py line 163:
`equity_required = (site_price + total_build_cost + consultant_costs + demolition_cost) * (1 - (lvr_pct / 100))`. -/
def equityRequired (i : Inputs) : ℚ :=
  (i.sitePrice + totalBuildCost i + consultantCosts i + i.demolitionCost) *
    (1 - i.lvrPct / 100)

/-- main.py line 164: `roe_pct = (profit / equity_required) * 100 if equity_required > 0 else 0`. -/
def roePct (i : Inputs) : ℚ :=
  if equityRequired i > 0 then profit i / equityRequired i * 100 else 0

/-- Outcome of the numerical root finder `npf.irr` in main.py line 174:
it either returns a finite rate, returns NaN (its behaviour on
non-convergence), or raises an exception (caught by the `except` on
line 177). -/
inductive RootFindOutcome where
  | value : ℚ → RootFindOutcome
  | nanResult : RootFindOutcome
  | raised : RootFindOutcome

/-- main.py lines 167-181, the IRR computation.  `o` is the outcome of
the `npf.irr` call and `fallbackPow` is the float value of the real
power `(profit / equity_required) ** (1 / annual_project_duration)`
used by the exception fallback on line 179 (the only non-rational
operation in the pipeline; it is passed in rather than computed).  The
result is `none` when the Python value is NaN: a NaN rate from
`npf.irr` propagates through `(1 + monthly_rate) ** 12 - 1` and
`* 100` without raising, so `irr_pct` itself is NaN in that case. -/
def irrPct (i : Inputs) (o : RootFindOutcome) (fallbackPow : ℚ) : Option ℚ :=
  if i.projectTimeline / 12 > 0 ∧ equityRequired i > 0 then
    match o with
    | RootFindOutcome.value r => some (((1 + r) ^ (12 : ℕ) - 1) * 100)
    | RootFindOutcome.nanResult => none
    | RootFindOutcome.raised => some ((fallbackPow - 1) * 100)
  else some 0

/-- Rounds a rational up to the next multiple of 100. -/
def ceilTo100 (x : ℚ) : ℚ := (Int.ceil (x / 100) : ℤ) * 100

/-- Modelled from the spec: the 6-bracket progressive stamp-duty
schedule (spec section 4.1, policy (b)).  The bracket-strategy code is
not among the source files under src/ (src/main.py carries only the
flat-rate strategy on line 134); the schedule below transcribes the
spec's bracket table, with the excess over the bracket floor rounded up
to the next multiple of 100 before the marginal rate is applied, and a
price exactly at a boundary falling in the lower bracket. -/
def stampDutyBracket (price : ℚ) : ℚ :=
  if price ≤ 17000 then 0 + (125 / 10000) * ceilTo100 (price - 0)
  else if price ≤ 36000 then 212 + (150 / 10000) * ceilTo100 (price - 17000)
  else if price ≤ 97000 then 497 + (175 / 10000) * ceilTo100 (price - 36000)
  else if price ≤ 364000 then 1564 + (350 / 10000) * ceilTo100 (price - 97000)
  else if price ≤ 1212000 then 10909 + (450 / 10000) * ceilTo100 (price - 364000)
  else 49069 + (550 / 10000) * ceilTo100 (price - 1212000)

/-- The default inputs of the UI widgets in src/main.py. -/
def sampleInputs : Inputs where
  sitePrice := 4900000
  siteSize := 613
  fsr := 7 / 10
  nsaPercent := 85
  numDwellings := 4
  demolitionCost := 0
  constructionCost := 8000
  consultantPct := 10
  marketingPct := 3 / 2
  agentsPct := 3 / 2
  gstPct := 10
  statutoryPct := 1
  legalPct := 1 / 2
  landHoldingPct := 5
  lvrPct := 65
  interestPct := 7
  projectTimeline := 24
  avgSalePrice := 38000
  stampDutyPct := 11 / 2

/-- The all-zero input record (every widget at 0). -/
def zeroInputs : Inputs where
  sitePrice := 0
  siteSize := 0
  fsr := 0
  nsaPercent := 0
  numDwellings := 0
  demolitionCost := 0
  constructionCost := 0
  consultantPct := 0
  marketingPct := 0
  agentsPct := 0
  gstPct := 0
  statutoryPct := 0
  legalPct := 0
  landHoldingPct := 0
  lvrPct := 0
  interestPct := 0
  projectTimeline := 0
  avgSalePrice := 0
  stampDutyPct := 0

/-- An input whose only nonzero cost driver is a demolition cost of
2400, fully geared (LVR 100%) at 100% interest over 24 months, so that
the construction-finance term is borne entirely by the demolition
component of its base. -/
def demoOnlyInputs : Inputs :=
  { zeroInputs with
      demolitionCost := 2400
      lvrPct := 100
      interestPct := 100
      projectTimeline := 24
      numDwellings := 1 }

/-- An input whose only costs are a 100 site purchase and a 100% stamp
duty on it, with zero construction and zero LVR: total costs are 200
while the equity requirement is 100. -/
def stampOnlyInputs : Inputs :=
  { zeroInputs with
      sitePrice := 100
      siteSize := 1
      fsr := 1
      numDwellings := 1
      stampDutyPct := 100
      projectTimeline := 12 }

/-- The default inputs with the site size forced to 0, so that the
gross floor area is 0. -/
def zeroGfaInputs : Inputs :=
  { sampleInputs with siteSize := 0, constructionCost := 0 }

/-- `zeroGfaInputs` with the construction cost rate raised from 0 to 1. -/
def zeroGfaInputsDearer : Inputs :=
  { zeroGfaInputs with constructionCost := 1 }

/-- The default inputs fully geared: LVR at 100%. -/
def fullLvrInputs : Inputs :=
  { sampleInputs with lvrPct := 100 }

/-- C1: the statutory-fee circular dependency is resolved by the
two-pass scheme: the engine first computes a subtotal equal to the sum
of the other eleven cost line items (site price, build cost,
consultants, marketing, agents fees, stamp duty, finance, demolition,
GST, legal, land holding), sets the statutory fee to the statutory rate
times that subtotal, and sets the total to subtotal plus fee; it never
solves the linear fixed point (at the default inputs the total differs
from the fixed-point solution subtotal / (1 - rate)). -/
theorem statutory_fee_two_pass :
    (∀ i : Inputs,
      statutoryFees i =
        (i.sitePrice + totalBuildCost i + consultantCosts i + marketingCosts i +
          agentsFees i + stampDuty i + financeCost i + i.demolitionCost +
          gstOnSales i + legalFees i + totalLandHoldingCosts i) *
          (i.statutoryPct / 100) ∧
      totalCosts i =
        (i.sitePrice + totalBuildCost i + consultantCosts i + marketingCosts i +
          agentsFees i + stampDuty i + financeCost i + i.demolitionCost +
          gstOnSales i + legalFees i + totalLandHoldingCosts i) +
          statutoryFees i) ∧
    totalCosts sampleInputs ≠
      subtotalCosts sampleInputs / (1 - sampleInputs.statutoryPct / 100) := by
  refine ⟨fun i => ⟨rfl, rfl⟩, ?_⟩
  norm_num [totalCosts, subtotalCosts, statutoryFees, sampleInputs, totalBuildCost,
    consultantCosts, gfa, marketingCosts, agentsFees, stampDuty, financeCost,
    siteFinanceCost, buildingFinanceCost, gstOnSales, legalFees, developmentCost,
    totalLandHoldingCosts, expectedRevenue, nsa]

/-- C2 counterexample: at the default inputs (positive equity and
positive timeline), a NaN result from the root finder propagates to the
IRR output (the output is NaN, modelled as `none` — not a finite number
and not 0), and a root-finder rate of 1 (100% per month) annualises to
409500%, which is reported as-is rather than clamped to 0 even though
it exceeds the alleged 500% plausibility threshold. -/
theorem irr_claim_counterexample :
    irrPct sampleInputs RootFindOutcome.nanResult 0 = none ∧
    irrPct sampleInputs (RootFindOutcome.value 1) 0 = some 409500 ∧
    (500 : ℚ) < 409500 := by
  refine ⟨?_, ?_, by norm_num⟩
  · rw [irrPct, if_pos]
    constructor <;>
      norm_num [sampleInputs, equityRequired, totalBuildCost, consultantCosts, gfa]
  · rw [irrPct, if_pos]
    · norm_num
    constructor <;>
      norm_num [sampleInputs, equityRequired, totalBuildCost, consultantCosts, gfa]

/-- C2 (amended): the IRR computation returns exactly 0 when
equity_required ≤ 0 or period_months ≤ 0; otherwise, when the root
finder returns a rate r the IRR is ((1+r)^12 - 1)·100 with no
finiteness or plausibility clamp, a NaN rate propagates to the output
(NaN, not 0), and when the root finder raises, the closed-form fallback
((profit/equity)^(1/years) - 1)·100 is returned instead of 0. -/
theorem irr_guard_and_failure_policy (i : Inputs) (fp r : ℚ) :
    ((i.projectTimeline ≤ 0 ∨ equityRequired i ≤ 0) →
      ∀ o : RootFindOutcome, irrPct i o fp = some 0) ∧
    (0 < i.projectTimeline → 0 < equityRequired i →
      irrPct i (RootFindOutcome.value r) fp =
          some (((1 + r) ^ (12 : ℕ) - 1) * 100) ∧
      irrPct i RootFindOutcome.nanResult fp = none ∧
      irrPct i RootFindOutcome.raised fp = some ((fp - 1) * 100)) := by
  constructor
  · intro h o
    rw [irrPct.eq_def, if_neg]
    rintro ⟨h1, h2⟩
    rcases h with h | h
    · have : i.projectTimeline / 12 ≤ 0 := by linarith
      exact absurd h1 (not_lt.mpr this)
    · exact absurd h2 (not_lt.mpr h)
  · intro ht he
    have hc : i.projectTimeline / 12 > 0 ∧ equityRequired i > 0 :=
      ⟨div_pos ht (by norm_num), he⟩
    exact ⟨by rw [irrPct, if_pos hc], by rw [irrPct, if_pos hc], by rw [irrPct, if_pos hc]⟩

/-- C2 witness: the amended theorem instantiated at the default inputs,
where the timeline is 24 months and the equity requirement is positive. -/
theorem irr_guard_and_failure_policy_witness :
    irrPct sampleInputs (RootFindOutcome.value 1) 2 = some 409500 ∧
    irrPct sampleInputs RootFindOutcome.nanResult 2 = none ∧
    irrPct sampleInputs RootFindOutcome.raised 2 = some 100 := by
  have h := (irr_guard_and_failure_policy sampleInputs 2 1).2
    (by norm_num [sampleInputs])
    (by norm_num [equityRequired, totalBuildCost, consultantCosts, gfa, sampleInputs])
  exact ⟨h.1.trans (by norm_num), h.2.1, h.2.2.trans (by norm_num)⟩

/-- C3: both stamp-duty strategies are supported: the flat-rate
strategy (src/main.py line 134) computes purchase price × configured
rate, and the 6-bracket progressive schedule with ceiling-to-100
rounding of the excess (modelled from the spec, as its code is not
under src/) gives duty(500000) = 10909 + 0.045 × 136000 = 17029. -/
theorem stamp_duty_strategies :
    (∀ i : Inputs, stampDuty i = i.sitePrice * (i.stampDutyPct / 100)) ∧
    stampDutyBracket 500000 = 17029 :=
  ⟨fun _ => rfl, by norm_num [stampDutyBracket, ceilTo100]⟩

/-- C4: area identities: for site_area ≥ 0 and FSR ≥ 0, GFA is exactly
site_area × FSR, NSA is exactly GFA × nsa_ratio (the ratio being the
percentage input divided by 100), and average dwelling size times the
dwelling count equals NSA exactly whenever the dwelling count is ≥ 1
(the identities are exact over ℚ, hence within any floating-point
tolerance). -/
theorem area_identities (i : Inputs) (_hs : 0 ≤ i.siteSize) (_hf : 0 ≤ i.fsr)
    (hd : 1 ≤ i.numDwellings) :
    gfa i = i.siteSize * i.fsr ∧
    nsa i = gfa i * (i.nsaPercent / 100) ∧
    avgDwellingSize i * i.numDwellings = nsa i := by
  refine ⟨rfl, rfl, ?_⟩
  have h : (0 : ℚ) < i.numDwellings := lt_of_lt_of_le one_pos hd
  rw [avgDwellingSize, if_pos h, div_mul_cancel₀ _ (ne_of_gt h)]

/-- C4 witness: the area identities at the default inputs (site size
613, FSR 0.7, NSA 85%, 4 dwellings). -/
theorem area_identities_witness :
    gfa sampleInputs = sampleInputs.siteSize * sampleInputs.fsr ∧
    nsa sampleInputs = gfa sampleInputs * (sampleInputs.nsaPercent / 100) ∧
    avgDwellingSize sampleInputs * sampleInputs.numDwellings = nsa sampleInputs :=
  area_identities sampleInputs (by norm_num [sampleInputs])
    (by norm_num [sampleInputs]) (by norm_num [sampleInputs])

/-- C5: degenerate denominators never raise and substitute 0: the land
cost per GFA is 0 (not NaN or infinite — the guarded branch is taken
and no division occurs) when GFA = 0, the profit margin is 0 when the
revenue is 0, and the ROE is 0 when the equity requirement is ≤ 0. -/
theorem zero_guards (i : Inputs) :
    (gfa i = 0 → landCostPerGfa i = 0) ∧
    (expectedRevenue i = 0 → profitMarginPct i = 0) ∧
    (equityRequired i ≤ 0 → roePct i = 0) := by
  refine ⟨fun h => ?_, fun h => ?_, fun h => ?_⟩
  · rw [landCostPerGfa, if_neg (by rw [h]; exact lt_irrefl 0)]
  · rw [profitMarginPct, if_neg (by rw [h]; exact lt_irrefl 0)]
  · rw [roePct, if_neg (not_lt.mpr h)]

/-- C5 witness: all three guards fire on the all-zero input, where the
GFA, the revenue and the equity requirement are all 0. -/
theorem zero_guards_witness :
    landCostPerGfa zeroInputs = 0 ∧ profitMarginPct zeroInputs = 0 ∧
    roePct zeroInputs = 0 :=
  ⟨(zero_guards zeroInputs).1 (by norm_num [gfa, zeroInputs]),
   (zero_guards zeroInputs).2.1 (by norm_num [expectedRevenue, nsa, gfa, zeroInputs]),
   (zero_guards zeroInputs).2.2
     (by norm_num [equityRequired, totalBuildCost, consultantCosts, gfa, zeroInputs])⟩

/-- C6: total cost additivity: the total cost equals the exact sum of
the twelve individually reported cost line items — site purchase, build
cost, demolition, consultants, marketing, agents fees, stamp duty, GST,
legal, land holding, finance, and statutory fees — with no item
double-counted and none omitted. -/
theorem total_cost_additivity (i : Inputs) :
    totalCosts i =
      i.sitePrice + totalBuildCost i + i.demolitionCost + consultantCosts i +
        marketingCosts i + agentsFees i + stampDuty i + gstOnSales i +
        legalFees i + totalLandHoldingCosts i + financeCost i + statutoryFees i := by
  rw [totalCosts, subtotalCosts]; ring

/-- C7 counterexample: the construction-finance base is not the build
cost alone.  On an input whose only nonzero cost driver is a 2400
demolition cost (zero site price, zero build cost), fully geared at
100% interest over 24 months, the code charges 2400 of finance cost,
while the claimed formula (site term plus build-cost-only construction
term) yields 0. -/
theorem finance_cost_claim_counterexample :
    financeCost demoOnlyInputs = 2400 ∧
    demoOnlyInputs.sitePrice * (demoOnlyInputs.lvrPct / 100) *
        (demoOnlyInputs.interestPct / 100) * (demoOnlyInputs.projectTimeline / 12) +
      totalBuildCost demoOnlyInputs * (demoOnlyInputs.lvrPct / 100) *
        (demoOnlyInputs.interestPct / 100) * (demoOnlyInputs.projectTimeline / 24) = 0 := by
  constructor <;>
    norm_num [financeCost, siteFinanceCost, buildingFinanceCost, totalBuildCost,
      consultantCosts, gfa, demoOnlyInputs, zeroInputs]

/-- C7 (amended): the finance cost equals site finance
(site_price × LVR × interest × period/12) plus construction finance,
whose base is total_build_cost + consultant_costs + demolition_cost
(not the build cost alone), at LVR × interest × period/24 — the halved
denominator modelling progressive drawdown. -/
theorem finance_cost_formula (i : Inputs) :
    financeCost i =
      i.sitePrice * (i.lvrPct / 100) * (i.interestPct / 100) *
          (i.projectTimeline / 12) +
        (totalBuildCost i + consultantCosts i + i.demolitionCost) *
          (i.lvrPct / 100) * (i.interestPct / 100) * (i.projectTimeline / 24) := rfl

/-- C8 counterexample: equity required is not total costs minus either
described loan.  On an input whose only costs are a 100 site purchase
and a 100% stamp duty on it (zero build cost, zero LVR), total costs
are 200 and the equity requirement is 100; the full-LVR loan model
gives 200 − (100 + 0)·0 = 200 ≠ 100, and since the build cost is 0 any
construction-only loan is 0, so that model also gives 200 ≠ 100. -/
theorem equity_claim_counterexample :
    totalBuildCost stampOnlyInputs = 0 ∧
    equityRequired stampOnlyInputs = 100 ∧
    totalCosts stampOnlyInputs = 200 ∧
    equityRequired stampOnlyInputs ≠
      totalCosts stampOnlyInputs -
        (stampOnlyInputs.sitePrice + totalBuildCost stampOnlyInputs) *
          (stampOnlyInputs.lvrPct / 100) := by
  refine ⟨?_, ?_, ?_, ?_⟩ <;>
    norm_num [totalCosts, subtotalCosts, statutoryFees, equityRequired,
      totalBuildCost, consultantCosts, gfa, marketingCosts, agentsFees, stampDuty,
      financeCost, siteFinanceCost, buildingFinanceCost, gstOnSales, legalFees,
      developmentCost, totalLandHoldingCosts, expectedRevenue, nsa,
      stampOnlyInputs, zeroInputs]

/-- C8 (amended): the equity requirement is the capital base
(site price + build cost + consultant costs + demolition) minus the
loan, where the loan is that same capital base times the LVR — not a
function of total costs; and when the equity requirement is ≤ 0 (as at
LVR 100%), the ROE is 0 rather than an error. -/
theorem equity_required_formula (i : Inputs) :
    equityRequired i =
      (i.sitePrice + totalBuildCost i + consultantCosts i + i.demolitionCost) -
        (i.sitePrice + totalBuildCost i + consultantCosts i + i.demolitionCost) *
          (i.lvrPct / 100) ∧
    (equityRequired i ≤ 0 → roePct i = 0) := by
  constructor
  · rw [equityRequired]; ring
  · intro h
    rw [roePct, if_neg (not_lt.mpr h)]

/-- C8 witness: the amended statement at the fully geared default
inputs, where the equity requirement is 0 and the ROE guard fires. -/
theorem equity_required_formula_witness :
    equityRequired fullLvrInputs =
      (fullLvrInputs.sitePrice + totalBuildCost fullLvrInputs +
          consultantCosts fullLvrInputs + fullLvrInputs.demolitionCost) -
        (fullLvrInputs.sitePrice + totalBuildCost fullLvrInputs +
          consultantCosts fullLvrInputs + fullLvrInputs.demolitionCost) *
          (fullLvrInputs.lvrPct / 100) ∧
    roePct fullLvrInputs = 0 :=
  ⟨(equity_required_formula fullLvrInputs).1,
   (equity_required_formula fullLvrInputs).2
     (by norm_num [equityRequired, totalBuildCost, consultantCosts, gfa,
       fullLvrInputs, sampleInputs])⟩

/-- C9 counterexample: strict monotonicity in the construction cost
rate fails when the gross floor area is 0.  With the site size forced
to 0 and all other inputs held fixed, raising the construction cost
rate from 0 to 1 leaves both the total build cost and the profit
unchanged. -/
theorem monotonicity_counterexample :
    zeroGfaInputsDearer = { zeroGfaInputs with constructionCost := 1 } ∧
    zeroGfaInputs.constructionCost < zeroGfaInputsDearer.constructionCost ∧
    totalBuildCost zeroGfaInputs = totalBuildCost zeroGfaInputsDearer ∧
    profit zeroGfaInputs = profit zeroGfaInputsDearer := by
  refine ⟨rfl, ?_, ?_, ?_⟩ <;>
    norm_num [profit, expectedRevenue, nsa, totalCosts, subtotalCosts,
      statutoryFees, totalBuildCost, consultantCosts, gfa, marketingCosts,
      agentsFees, stampDuty, financeCost, siteFinanceCost, buildingFinanceCost,
      gstOnSales, legalFees, developmentCost, totalLandHoldingCosts,
      zeroGfaInputsDearer, zeroGfaInputs, sampleInputs]

/-- C9 (amended): when the gross floor area is positive and the rate
inputs are nonnegative, strictly increasing the construction cost rate,
holding all other inputs fixed, strictly increases the total build cost
and strictly decreases the profit. -/
theorem monotonicity_amended (i : Inputs) (c₁ c₂ : ℚ)
    (hg : 0 < gfa i) (hc : c₁ < c₂)
    (hcp : 0 ≤ i.consultantPct) (hlvr : 0 ≤ i.lvrPct) (hir : 0 ≤ i.interestPct)
    (ht : 0 ≤ i.projectTimeline) (hlp : 0 ≤ i.legalPct) (hsp : 0 ≤ i.statutoryPct) :
    totalBuildCost { i with constructionCost := c₁ } <
      totalBuildCost { i with constructionCost := c₂ } ∧
    profit { i with constructionCost := c₂ } <
      profit { i with constructionCost := c₁ } := by
  have hgfa : gfa { i with constructionCost := c₁ } = gfa i := rfl
  have hK : 0 ≤ (i.lvrPct / 100) * (i.interestPct / 100) * (i.projectTimeline / 24) := by
    have h1 : 0 ≤ i.lvrPct / 100 := by positivity
    have h2 : 0 ≤ i.interestPct / 100 := by positivity
    have h3 : 0 ≤ i.projectTimeline / 24 := by positivity
    exact mul_nonneg (mul_nonneg h1 h2) h3
  constructor
  · show gfa i * c₁ < gfa i * c₂
    exact mul_lt_mul_of_pos_left hc hg
  · have key : profit { i with constructionCost := c₁ } -
        profit { i with constructionCost := c₂ } =
        gfa i * (c₂ - c₁) *
          ((1 + i.consultantPct / 100) *
              (1 + (i.lvrPct / 100) * (i.interestPct / 100) * (i.projectTimeline / 24)) +
            i.legalPct / 100) * (1 + i.statutoryPct / 100) := by
      simp only [profit, expectedRevenue, nsa, totalCosts, subtotalCosts,
        statutoryFees, totalBuildCost, consultantCosts, gfa, marketingCosts,
        agentsFees, stampDuty, financeCost, siteFinanceCost, buildingFinanceCost,
        gstOnSales, legalFees, developmentCost, totalLandHoldingCosts]
      ring
    have hM : 0 <
        (1 + i.consultantPct / 100) *
            (1 + (i.lvrPct / 100) * (i.interestPct / 100) * (i.projectTimeline / 24)) +
          i.legalPct / 100 := by
      have h1 : (0 : ℚ) < 1 + i.consultantPct / 100 := by positivity
      have h2 : (0 : ℚ) < 1 + (i.lvrPct / 100) * (i.interestPct / 100) *
          (i.projectTimeline / 24) := by linarith
      have h3 : (0 : ℚ) ≤ i.legalPct / 100 := by positivity
      nlinarith
    have hS : (0 : ℚ) < 1 + i.statutoryPct / 100 := by positivity
    have hpos : 0 < gfa i * (c₂ - c₁) *
        ((1 + i.consultantPct / 100) *
            (1 + (i.lvrPct / 100) * (i.interestPct / 100) * (i.projectTimeline / 24)) +
          i.legalPct / 100) * (1 + i.statutoryPct / 100) :=
      mul_pos (mul_pos (mul_pos hg (by linarith)) hM) hS
    linarith [key, hpos]

/-- C9 witness: the amended monotonicity at the default inputs, raising
the construction cost rate from 8000 to 9000 per sqm. -/
theorem monotonicity_amended_witness :
    totalBuildCost { sampleInputs with constructionCost := 8000 } <
      totalBuildCost { sampleInputs with constructionCost := 9000 } ∧
    profit { sampleInputs with constructionCost := 9000 } <
      profit { sampleInputs with constructionCost := 8000 } :=
  monotonicity_amended sampleInputs 8000 9000 (by norm_num [gfa, sampleInputs])
    (by norm_num) (by norm_num [sampleInputs]) (by norm_num [sampleInputs])
    (by norm_num [sampleInputs]) (by norm_num [sampleInputs])
    (by norm_num [sampleInputs]) (by norm_num [sampleInputs])

/-- C10 (implicit): for inputs whose magnitude fields and rates are
nonnegative and whose LVR lies in [0, 100], the equity requirement
(site price + build cost + consultant costs + demolition) × (1 − LVR/100)
is nonnegative — the over-financed negative-equity case never occurs —
and at LVR = 100% the equity requirement is exactly 0, forcing both the
ROE and the IRR (whatever the root finder would have returned) to 0. -/
theorem equity_nonnegative (i : Inputs) (o : RootFindOutcome) (fp : ℚ)
    (h1 : 0 ≤ i.sitePrice) (h2 : 0 ≤ i.siteSize) (h3 : 0 ≤ i.fsr)
    (h4 : 0 ≤ i.constructionCost) (h5 : 0 ≤ i.consultantPct)
    (h6 : 0 ≤ i.demolitionCost) (_h7 : 0 ≤ i.lvrPct) (h8 : i.lvrPct ≤ 100) :
    0 ≤ equityRequired i ∧
    (i.lvrPct = 100 →
      equityRequired i = 0 ∧ roePct i = 0 ∧ irrPct i o fp = some 0) := by
  have hbuild : 0 ≤ totalBuildCost i :=
    mul_nonneg (mul_nonneg h2 h3) h4
  have hcons : 0 ≤ consultantCosts i :=
    mul_nonneg (mul_nonneg (mul_nonneg h2 h3) h4) (by positivity)
  have hbase : 0 ≤ i.sitePrice + totalBuildCost i + consultantCosts i +
      i.demolitionCost := by linarith
  constructor
  · have hfac : 0 ≤ 1 - i.lvrPct / 100 := by linarith
    exact mul_nonneg hbase hfac
  · intro hl
    have heq : equityRequired i = 0 := by
      rw [equityRequired, hl]; ring
    refine ⟨heq, ?_, ?_⟩
    · rw [roePct, if_neg (by rw [heq]; exact lt_irrefl 0)]
    · rw [irrPct.eq_def, if_neg]
      rintro ⟨-, h⟩
      rw [heq] at h
      exact lt_irrefl 0 h

/-- C10 witness: the fully geared default inputs, where the LVR is
100%, the equity requirement is 0, and both the ROE and the IRR
collapse to 0 even though the root finder would have reported a rate. -/
theorem equity_nonnegative_witness :
    0 ≤ equityRequired fullLvrInputs ∧ equityRequired fullLvrInputs = 0 ∧
    roePct fullLvrInputs = 0 ∧
    irrPct fullLvrInputs (RootFindOutcome.value 1) 0 = some 0 := by
  have h := equity_nonnegative fullLvrInputs (RootFindOutcome.value 1) 0
    (by norm_num [fullLvrInputs, sampleInputs]) (by norm_num [fullLvrInputs, sampleInputs])
    (by norm_num [fullLvrInputs, sampleInputs]) (by norm_num [fullLvrInputs, sampleInputs])
    (by norm_num [fullLvrInputs, sampleInputs]) (by norm_num [fullLvrInputs, sampleInputs])
    (by norm_num [fullLvrInputs, sampleInputs]) (by norm_num [fullLvrInputs, sampleInputs])
  exact ⟨h.1, (h.2 rfl).1, (h.2 rfl).2.1, (h.2 rfl).2.2⟩
